import Mathlib

/-!
Verification of the geometry / triangles crates.

The repository consists of two Rust crates:

* `src/geometry/src/lib.rs` — a `Point` struct (three private `f64`
  fields `x`, `y`, `z`), a payload-free enum `Type` with variants
  `D1`, `D2`, `D3`, and a trait `Dimensional` with a single method
  `fn dimensions(&self) -> Type`.
* `src/triangles/src/lib.rs` — a `#[cfg(test)]` module containing a
  private zero-field struct `Triangle`, an `impl Dimensional for
  Triangle` whose body is `return Type::D2;`, and a unit test
  `validate_type_test` asserting `matches!(t.dimensions(), Type::D2)`.

The development embeds the code at two levels:

1. a semantic, value-level embedding (`Ty`, `Point`, `Dimensional`,
   `Triangle`, `Triangle.dimensionsSt`) used for the behavioural
   claims; the Rust enum `Type` is rendered as `Ty` because `Type` is
   a reserved sort name in Lean;
2. a declaration-level transcription of the two crates
   (`geometryCrate`, `trianglesCrate`) recording the items, their
   visibility, field types, trait signatures and `#[cfg(test)]`
   status, used for the interface-shape claims (privacy, variant
   counts, method counts, test-only compilation).
-/

namespace RustModules

/-- Semantic embedding of the Rust enum `Type` from
`src/geometry/src/lib.rs` (variants `D1`, `D2`, `D3`, no payload).
Named `Ty` because `Type` is a reserved sort name in Lean. -/
inductive Ty : Type
  | D1 : Ty
  | D2 : Ty
  | D3 : Ty
deriving DecidableEq, Repr

/-- Semantic embedding of the Rust struct `Point` from
`src/geometry/src/lib.rs`: three `f64` coordinate fields. The source
performs no floating-point arithmetic on them (they are only stored at
construction and read back by field projection), so `Float` carries
them faithfully. -/
structure Point : Type where
  x : Float
  y : Float
  z : Float

/-- Semantic embedding of the Rust trait `Dimensional` from
`src/geometry/src/lib.rs`: a capability with the single method
`fn dimensions(&self) -> Type`. -/
class Dimensional (α : Type) : Type where
  dimensions : α → Ty

export Dimensional (dimensions)

/-- Semantic embedding of the Rust struct `Triangle` from
`src/triangles/src/lib.rs`: a zero-field placeholder struct. -/
structure Triangle : Type

/-- Embedding of `impl Dimensional for Triangle` from
`src/triangles/src/lib.rs`: the body is `return Type::D2;`. -/
instance : Dimensional Triangle where
  dimensions _ := Ty.D2

/-- Embedding of the body of the unit test `validate_type_test` from
`src/triangles/src/lib.rs`: construct `Triangle{}`, call
`dimensions()`, and check `matches!(result, Type::D2)`. -/
def validate_type_test : Bool :=
  match dimensions (Triangle.mk) with
  | Ty.D2 => true
  | _ => false

/-- State-threading embedding of `Triangle::dimensions`. A Rust method
body is translated by passing the receiver and an (arbitrary) outer
world state explicitly; the body `return Type::D2;` contains no read
or write of the receiver or of any outer state, so the translation
returns `Ty.D2` together with the untouched receiver and state. -/
def Triangle.dimensionsSt {σ : Type} (t : Triangle) (s : σ) : Ty × Triangle × σ :=
  (Ty.D2, t, s)

/-- A sequence of `n` successive invocations of `dimensions()` on the
same receiver `t`, collecting the results. -/
def callN (t : Triangle) : Nat → List Ty
  | 0 => []
  | n + 1 => dimensions t :: callN t n

/- Declaration-level transcription of the two crates. -/

/-- Rust item visibility: `pub` or private (no modifier). -/
inductive Vis : Type
  | pub : Vis
  | priv : Vis
deriving DecidableEq, Repr

/-- A struct field declaration: name, visibility, declared type. -/
structure FieldDecl : Type where
  fname : String
  fvis : Vis
  fty : String
deriving DecidableEq, Repr

/-- A struct declaration: name, visibility, fields, and whether it is
declared under `#[cfg(test)]`. -/
structure StructDecl : Type where
  sname : String
  svis : Vis
  sfields : List FieldDecl
  scfgTest : Bool
deriving DecidableEq, Repr

/-- An enum variant declaration: name and payload types. -/
structure VariantDecl : Type where
  vname : String
  vpayload : List String
deriving DecidableEq, Repr

/-- An enum declaration: name, visibility, variants, derived traits. -/
structure EnumDecl : Type where
  ename : String
  evis : Vis
  evariants : List VariantDecl
  ederives : List String
deriving DecidableEq, Repr

/-- A method signature: name, whether it takes `&self`, the further
parameter types, and the return type. -/
structure MethodSig : Type where
  mname : String
  mtakesSelf : Bool
  mextraParams : List String
  mret : String
deriving DecidableEq, Repr

/-- A trait declaration: name, visibility, method signatures. -/
structure TraitDecl : Type where
  tname : String
  tvis : Vis
  tmethods : List MethodSig
deriving DecidableEq, Repr

/-- An impl block: the implemented trait (`none` for an inherent
impl), the implementing type, the methods, and whether it is declared
under `#[cfg(test)]`. -/
structure ImplDecl : Type where
  itrait : Option String
  ifor : String
  imethods : List MethodSig
  icfgTest : Bool
deriving DecidableEq, Repr

/-- The item declarations of one crate: structs, enums, traits, impl
blocks, and names of free functions. -/
structure CrateDecls : Type where
  structs : List StructDecl
  enums : List EnumDecl
  traits : List TraitDecl
  impls : List ImplDecl
  freeFns : List String
deriving DecidableEq, Repr

/-- Transcription of `src/geometry/src/lib.rs`: `pub struct Point`
with private fields `x`, `y`, `z` of type `f64`; `pub enum Type` with
payload-free variants `D1`, `D2`, `D3` and no derives; `pub trait
Dimensional` with the single method `fn dimensions(&self) -> Type`.
The crate contains no impl block and no free function. -/
def geometryCrate : CrateDecls where
  structs := [⟨"Point", Vis.pub,
    [⟨"x", Vis.priv, "f64"⟩, ⟨"y", Vis.priv, "f64"⟩, ⟨"z", Vis.priv, "f64"⟩],
    false⟩]
  enums := [⟨"Type", Vis.pub, [⟨"D1", []⟩, ⟨"D2", []⟩, ⟨"D3", []⟩], []⟩]
  traits := [⟨"Dimensional", Vis.pub, [⟨"dimensions", true, [], "Type"⟩]⟩]
  impls := []
  freeFns := []

/-- Transcription of `src/triangles/src/lib.rs`: everything sits
inside `#[cfg(test)] pub mod triangles`, so every item is test-only.
The struct `Triangle {}` has no `pub` modifier (private to the
module) and no fields; the sole impl block is `impl Dimensional for
Triangle` with the single method `fn dimensions(&self) -> Type`. The
test function `validate_type_test` is a free function of the test
module. -/
def trianglesCrate : CrateDecls where
  structs := [⟨"Triangle", Vis.priv, [], true⟩]
  enums := []
  traits := []
  impls := [⟨some "Dimensional", "Triangle", [⟨"dimensions", true, [], "Type"⟩], true⟩]
  freeFns := ["validate_type_test"]

/- Theorems settling the claims. -/

/-- C1: every `Triangle` answers `Type::D2` (and so neither `D1` nor
`D3`) to `dimensions()`, and the end-to-end scenario of the source
test — construct a `Triangle` with no data, call `dimensions()`,
pattern-match the result against `Type::D2` — succeeds. -/
theorem triangle_dimensions_is_D2 :
    (∀ t : Triangle, dimensions t = Ty.D2) ∧
    (∀ t : Triangle, dimensions t ≠ Ty.D1 ∧ dimensions t ≠ Ty.D3) ∧
    validate_type_test = true :=
  ⟨fun _ => rfl, fun _ => ⟨fun h => Ty.noConfusion h, fun h => Ty.noConfusion h⟩, rfl⟩

/-- C2: `Ty` is a closed sum type: every value is `D1`, `D2` or `D3`,
the three variants are pairwise distinct and there are exactly three
of them; the transcribed declaration of the enum `Type` confirms the
three payload-free variants and its empty derive list (in particular
no `PartialOrd`/`Ord`, so no ordering is defined). -/
theorem ty_closed_three_variants :
    (∀ t : Ty, t = Ty.D1 ∨ t = Ty.D2 ∨ t = Ty.D3) ∧
    (Ty.D1 ≠ Ty.D2 ∧ Ty.D1 ≠ Ty.D3 ∧ Ty.D2 ≠ Ty.D3) ∧
    (geometryCrate.enums.map fun e =>
      (e.ename, e.evariants.map VariantDecl.vname,
       e.evariants.map (fun v => v.vpayload.length), e.ederives)) =
      [("Type", ["D1", "D2", "D3"], [0, 0, 0], [])] :=
  ⟨fun t => by cases t <;> simp, by decide, rfl⟩

/-- C3: constructing a `Point` requires all three coordinates and
reading the fields back returns exactly the values supplied, in
particular `(1.0, 2.0, 5.5)` reads back as `1.0`, `2.0`, `5.5`. -/
theorem point_construct_readback :
    (∀ a b c : Float,
      (Point.mk a b c).x = a ∧ (Point.mk a b c).y = b ∧ (Point.mk a b c).z = c) ∧
    ((Point.mk 1.0 2.0 5.5).x = 1.0 ∧
     (Point.mk 1.0 2.0 5.5).y = 2.0 ∧
     (Point.mk 1.0 2.0 5.5).z = 5.5) :=
  ⟨fun _ _ _ => ⟨rfl, rfl, rfl⟩, rfl, rfl, rfl⟩

/-- C4: `dimensions()` on the sole concrete implementer `Triangle` is
total — it is a plain function in the embedding, with no error value
and no panic path — and always returns one of the three fixed tags. -/
theorem triangle_dimensions_total :
    ∀ t : Triangle,
      dimensions t = Ty.D1 ∨ dimensions t = Ty.D2 ∨ dimensions t = Ty.D3 :=
  fun _ => Or.inr (Or.inl rfl)

/-- C5: repeated invocations of `dimensions()` on one `Triangle`
instance all return the same value (`Ty.D2`), and under the
state-threading embedding the returned value does not depend on the
outer state, so the query is deterministic and referentially
transparent. -/
theorem triangle_dimensions_deterministic :
    (∀ (t : Triangle) (n : Nat), callN t n = List.replicate n Ty.D2) ∧
    (∀ (σ : Type) (t : Triangle) (s1 s2 : σ),
      (Triangle.dimensionsSt t s1).1 = (Triangle.dimensionsSt t s2).1) := by
  constructor
  · intro t n
    induction n with
    | zero => rfl
    | succ n ih => simp [callN, ih, List.replicate, dimensions]
  · intro σ t s1 s2
    rfl

/-- C6: under the state-threading embedding, `dimensions()` writes
neither the outer state nor the receiver (both come back unchanged)
and its result does not read the outer state (it is the same for
every state). -/
theorem triangle_dimensions_no_side_effects :
    ∀ (σ : Type) (t : Triangle) (s : σ),
      (Triangle.dimensionsSt t s).2.1 = t ∧
      (Triangle.dimensionsSt t s).2.2 = s ∧
      (∀ s' : σ, (Triangle.dimensionsSt t s).1 = (Triangle.dimensionsSt t s').1) :=
  fun _ _ _ => ⟨rfl, rfl, fun _ => rfl⟩

/-- C7: `Point` consists of exactly the three attributes `x`, `y`,
`z` — two points agreeing on them are equal — each declared with type
`f64`, and neither crate defines a method on `Point` or an impl of
`Dimensional` (or anything else) for `Point`. -/
theorem point_three_f64_fields_no_methods :
    (∀ p q : Point, p.x = q.x → p.y = q.y → p.z = q.z → p = q) ∧
    (geometryCrate.structs.map fun s =>
      (s.sname, s.sfields.map fun f => (f.fname, f.fty))) =
      [("Point", [("x", "f64"), ("y", "f64"), ("z", "f64")])] ∧
    geometryCrate.impls = [] ∧
    (trianglesCrate.impls.map ImplDecl.ifor) = ["Triangle"] := by
  refine ⟨?_, rfl, rfl, rfl⟩
  intro p q hx hy hz
  cases p
  cases q
  simp_all

/-- C8: the `Dimensional` capability carries exactly one operation —
the class is in bijection with `α → Ty`, so an implementation is
nothing but one function from the receiver to `Ty` — and the
transcribed trait declaration has the single method `dimensions`,
taking only `&self` and returning `Type`. -/
theorem dimensional_single_operation :
    (∀ (α : Type) (f : α → Ty), @dimensions α ⟨f⟩ = f) ∧
    (∀ (α : Type) (d : Dimensional α), (⟨@dimensions α d⟩ : Dimensional α) = d) ∧
    geometryCrate.traits =
      [⟨"Dimensional", Vis.pub, [⟨"dimensions", true, [], "Type"⟩]⟩] :=
  ⟨fun _ _ => rfl, fun _ _ => rfl, rfl⟩

/-- C9: in the transcribed geometry crate the struct `Point` is
public but all of its fields are private, and the crate contains no
impl block and no free function, hence no public constructor,
accessor or method through which external code could build a `Point`
or observe its coordinates. -/
theorem point_fields_private_no_public_api :
    (geometryCrate.structs.map fun s =>
      (s.sname, s.svis, s.sfields.map FieldDecl.fvis)) =
      [("Point", Vis.pub, [Vis.priv, Vis.priv, Vis.priv])] ∧
    geometryCrate.impls = [] ∧
    geometryCrate.freeFns = [] :=
  ⟨rfl, rfl, rfl⟩

/-- C10: in the transcribed triangles crate every struct and every
impl block is declared under `#[cfg(test)]`, the struct `Triangle` is
private to the test module, and the crate declares no enum, no trait
and no public shape type outside its tests. -/
theorem triangle_test_only_private :
    (trianglesCrate.structs.map fun s => (s.sname, s.svis, s.scfgTest)) =
      [("Triangle", Vis.priv, true)] ∧
    (trianglesCrate.impls.map ImplDecl.icfgTest) = [true] ∧
    trianglesCrate.enums = [] ∧
    trianglesCrate.traits = [] ∧
    (trianglesCrate.structs.filter fun s => !s.scfgTest) = [] :=
  ⟨rfl, rfl, rfl, rfl, rfl⟩

end RustModules
